import Mathlib

/-!
Shallow embedding of the booking/availability core of DockDineStay
(`backend/src/dockdinestay`), covering:

* the MongoDB document layer used by `HotelBookingCRUD`
  (`db/hotel_booking.py`): documents are string-keyed association lists of
  BSON-like values, and the availability query is modelled with MongoDB's
  semantics (a comparison operator such as `$lt` does not match a document
  in which the queried field is missing);
* `HotelBookingCRUD._check_room_availability`, `create_booking` and
  `update_booking`;
* the role gate of the boat-booking update endpoint
  (`routers/boat_bookings.py::update_boat_booking`);
* the interval validators of the Pydantic models
  (`db/models.py::HotelBooking.check_out_after_check_in`,
  `db/models.py::BoatBooking.end_time_after_start_time`).

ObjectIds are modelled as `Nat` (every modelled id is a valid ObjectId),
datetimes as `Int` timestamps (`astimezone` does not change the instant, so
the code's timezone normalisation is the identity on the modelled value),
and monetary floats as `Int` (no claim depends on prices).
-/

namespace DockDineStay

/-- A BSON-like value as stored in a MongoDB document: ObjectId, datetime
(as a timestamp), string, integer, or null. -/
inductive BVal where
  | oid : Nat → BVal
  | dt : Int → BVal
  | str : String → BVal
  | int : Int → BVal
  | null : BVal
deriving DecidableEq, Repr

/-- A MongoDB document: an association list from field names to values
(well-formed documents have no repeated keys). -/
abbrev Doc := List (String × BVal)

/-- Equality of `Except` results is decidable when both components are;
used to evaluate the CRUD operations at concrete inputs. -/
instance {ε α : Type} [DecidableEq ε] [DecidableEq α] : DecidableEq (Except ε α)
  | .ok a, .ok b =>
    if h : a = b then .isTrue (by rw [h]) else .isFalse (by simp [h])
  | .error a, .error b =>
    if h : a = b then .isTrue (by rw [h]) else .isFalse (by simp [h])
  | .ok _, .error _ => .isFalse (by simp)
  | .error _, .ok _ => .isFalse (by simp)

/-- First value stored under key `k`, if any (Python `doc.get(k)` /
a MongoDB field access). -/
def Doc.get (d : Doc) (k : String) : Option BVal :=
  match d with
  | [] => none
  | (k', v) :: rest => if k' = k then some v else Doc.get rest k

/-- Python truthiness of a stored value (`None`, `""` and `0` are falsy;
ObjectIds and datetimes are always truthy). -/
def BVal.truthy : BVal → Bool
  | .null => false
  | .str s => !(s = "")
  | .int n => !(n = 0)
  | .oid _ => true
  | .dt _ => true

/-- `db/utils.py::HotelRoomStatus`. -/
inductive HotelRoomStatus where
  | available | occupied | maintenance
deriving DecidableEq, Repr

/-- `db/utils.py::HotelBookingStatus`. -/
inductive HotelBookingStatus where
  | booked | checked_in | checked_out | cancelled | pending | checked_out_unpaid
deriving DecidableEq, Repr

/-- The string value of a `HotelBookingStatus` member (it is a `str` Enum;
this is what gets stored in MongoDB and compared by `$in`). -/
def HotelBookingStatus.value : HotelBookingStatus → String
  | .booked => "booked"
  | .checked_in => "checked-in"
  | .checked_out => "checked-out"
  | .cancelled => "cancelled"
  | .pending => "pending"
  | .checked_out_unpaid => "checked-out-unpaid"

/-- `db/utils.py::BoatBookingStatus`. -/
inductive BoatBookingStatus where
  | booked | started | completed | cancelled
deriving DecidableEq, Repr

/-- The string value of a `BoatBookingStatus` member. -/
def BoatBookingStatus.value : BoatBookingStatus → String
  | .booked => "booked"
  | .started => "started"
  | .completed => "completed"
  | .cancelled => "cancelled"

/-- A stored hotel-room document, with the fields
`_check_room_availability` reads (`db/models.py::HotelRoom` stores more,
but the availability code reads only `_id`, `status`, `room_number`). -/
structure HotelRoomDoc where
  id : Nat
  room_number : String
  status : HotelRoomStatus
deriving DecidableEq, Repr

/-- The `db/models.py::HotelBooking` Pydantic model, after validation
(fields in declaration order; `id` carries alias `_id`). -/
structure HotelBooking where
  id : Nat
  customer_name : String
  customer_phone : Option String
  room_id : Nat
  check_in : Int
  check_out : Int
  number_of_guests : Int
  special_requests : Option String
  total_price : Int
  status : HotelBookingStatus
  created_by : Option Nat
  created_at : Int
  updated_at : Int
deriving DecidableEq, Repr

/-- Dump of an optional string (Pydantic serialises `None` as BSON null). -/
def optStr : Option String → BVal
  | some s => .str s
  | none => .null

/-- Dump of an optional ObjectId. -/
def optOid : Option Nat → BVal
  | some n => .oid n
  | none => .null

/-- `booking_data.model_dump(by_alias=True)` with every field set: the
document `create_booking` inserts.  The keys are the model's field names
(`id` dumps under its alias `_id`); note the interval fields dump as
`check_in` / `check_out` — the model has no `check_in_date` or
`check_out_date` field. -/
def hotelBookingDump (b : HotelBooking) : Doc :=
  [("_id", .oid b.id),
   ("customer_name", .str b.customer_name),
   ("customer_phone", optStr b.customer_phone),
   ("room_id", .oid b.room_id),
   ("check_in", .dt b.check_in),
   ("check_out", .dt b.check_out),
   ("number_of_guests", .int b.number_of_guests),
   ("special_requests", optStr b.special_requests),
   ("total_price", .int b.total_price),
   ("status", .str b.status.value),
   ("created_by", optOid b.created_by),
   ("created_at", .dt b.created_at),
   ("updated_at", .dt b.updated_at)]

/-- The keys `HotelBooking.model_dump(by_alias=True, exclude_unset=True)`
can produce: exactly the dump keys above.  An update patch
(`update_data` in `update_booking`) is a sub-dictionary of these. -/
def hotelDumpKeys : List String :=
  ["_id", "customer_name", "customer_phone", "room_id", "check_in",
   "check_out", "number_of_guests", "special_requests", "total_price",
   "status", "created_by", "created_at", "updated_at"]

/-- A patch is a possible output of
`model_dump(by_alias=True, exclude_unset=True)`: every key is a model dump
key, and no key repeats (it is a Python dictionary). -/
def patchWellFormed (p : Doc) : Prop :=
  (∀ kv ∈ p, kv.1 ∈ hotelDumpKeys) ∧ (p.map Prod.fst).Nodup

instance (p : Doc) : Decidable (patchWellFormed p) := by
  unfold patchWellFormed; infer_instance

/-- The errors `hotel_booking.py` can raise.  `httpStatus` below gives the
`HTTPException` status code of each; `keyError` and `typeError` model the
unhandled Python exceptions `KeyError` / `TypeError` (an HTTP 500 at the
framework boundary). -/
inductive BookingError where
  | invalidInterval
  | roomNotFound
  | roomOutOfService
  | bookingConflict
  | userNotFound
  | userIdChange
  | notModified
  | keyError
  | typeError
deriving DecidableEq, Repr

/-- HTTP status of each raised `HTTPException` (`none` for the unhandled
Python exceptions, which FastAPI surfaces as a 500). -/
def BookingError.httpStatus : BookingError → Option Nat
  | .invalidInterval => some 400
  | .roomNotFound => some 404
  | .roomOutOfService => some 400
  | .bookingConflict => some 409
  | .userNotFound => some 404
  | .userIdChange => some 400
  | .notModified => some 304
  | .keyError => none
  | .typeError => none

/-- The collections `HotelBookingCRUD` touches: `users` (only `_id` is
read), `hotel_rooms` and `hotel_bookings`. -/
structure HotelDB where
  users : List Nat
  rooms : List HotelRoomDoc
  hotel_bookings : List Doc
deriving DecidableEq, Repr

/-- The active statuses of `_check_room_availability` (its
`active_booking_statuses` list, as the strings MongoDB compares). -/
def activeBookingStatuses : List String :=
  ["pending", "booked", "checked-in", "checked-out-unpaid"]

/-- Whether a stored booking document matches the overlap query of
`_check_room_availability` (hotel_booking.py lines 100–114), with
MongoDB's matching semantics: an equality / `$in` / `$lt` / `$gt`
condition only matches a document that carries the queried field with a
comparable value.  The interval conditions query the fields
`check_in_date` and `check_out_date`. -/
def overlapQueryMatch (room_id : Nat) (check_in check_out : Int)
    (exclude : Option Nat) (d : Doc) : Bool :=
  (d.get "room_id" = some (.oid room_id)) &&
  (match d.get "status" with
   | some (.str s) => activeBookingStatuses.contains s
   | _ => false) &&
  (match d.get "check_in_date" with
   | some (.dt t) => t < check_out
   | _ => false) &&
  (match d.get "check_out_date" with
   | some (.dt t) => t > check_in
   | _ => false) &&
  (match exclude with
   | some e => !(d.get "_id" = some (.oid e))
   | none => true)

/-- `HotelBookingCRUD._check_room_availability`: interval check, room
existence, maintenance check, then the count of overlapping active
bookings (the `astimezone` normalisation is the identity on instants). -/
def checkRoomAvailability (db : HotelDB) (room_id : Nat)
    (check_in check_out : Int) (exclude : Option Nat) :
    Except BookingError Bool :=
  if check_out ≤ check_in then .error .invalidInterval
  else
    match db.rooms.find? (fun r => r.id = room_id) with
    | none => .error .roomNotFound
    | some room =>
      if room.status = .maintenance then .error .roomOutOfService
      else
        .ok ((db.hotel_bookings.filter
          (overlapQueryMatch room_id check_in check_out exclude)).length = 0)

/-- `HotelBookingCRUD.create_booking`: validates `created_by` against the
users collection (`find_one({"_id": created_by})`, so a `None` creator
matches no user document), checks availability, then inserts the model
dump.  The default-filling block (lines 146–152) is the identity here:
`status`, `created_at` and `updated_at` are non-optional and always
truthy, so none of its branches fire.  On error nothing is inserted. -/
def create_booking (db : HotelDB) (b : HotelBooking) :
    Except BookingError (HotelDB × Doc) :=
  match b.created_by with
  | none => .error .userNotFound
  | some uid =>
    if !(db.users.contains uid) then .error .userNotFound
    else
      match checkRoomAvailability db b.room_id b.check_in b.check_out none with
      | .error e => .error e
      | .ok available =>
        if !available then .error .bookingConflict
        else
          .ok ({db with hotel_bookings := db.hotel_bookings ++ [hotelBookingDump b]},
               hotelBookingDump b)

/-- Python `doc[k]` (square-bracket access): `KeyError` when the field is
missing. -/
def docIndex (d : Doc) (k : String) : Except BookingError BVal :=
  match d.get k with
  | some v => .ok v
  | none => .error .keyError

/-- Truthiness-respecting change test, mirroring
`update_data.get(k) and update_data[k] != current_booking_doc.get(k)`
(`update_booking`, lines 216–224): a missing or falsy patched value never
counts as a change; otherwise the patched value is compared against the
stored one (`!= None` is true when the stored field is missing). -/
def docFieldChanged (ud cur : Doc) (k : String) : Bool :=
  match ud.get k with
  | none => false
  | some v => v.truthy && !(some v = cur.get k)

/-- Python `update_data[k] = v` / one key of a MongoDB `$set`: replace the
value of the (in a dictionary unique) occurrence of `k` in place, else
append the field at the end. -/
def setField : Doc → String → BVal → Doc
  | [], k, v => [(k, v)]
  | (k1, v1) :: rest, k, v =>
    if k1 = k then (k, v) :: rest else (k1, v1) :: setField rest k v

/-- MongoDB `$set` with dictionary `updates`, applied key by key.  The
write counts as a modification (`modified_count > 0`) exactly when the
result differs from the original document. -/
def applySet : Doc → Doc → Doc
  | d, [] => d
  | d, (k, v) :: rest => applySet (setField d k v) rest

/-- `update_data.pop("_id", None); update_data.pop("id", None)`
(`update_booking`, lines 212–213). -/
def stripIds (p : Doc) : Doc :=
  p.filter (fun kv => !(kv.1 = "_id") && !(kv.1 = "id"))

/-- `collection.find_one({"_id": bid})` over the bookings collection. -/
def findBookingDoc (bs : List Doc) (bid : Nat) : Option Doc :=
  bs.find? (fun d => d.get "_id" = some (.oid bid))

/-- `collection.update_one({"_id": bid}, {"$set": ...})`: replace the
matched document. -/
def replaceBookingDoc (bs : List Doc) (bid : Nat) (newDoc : Doc) : List Doc :=
  bs.map (fun d => if d.get "_id" = some (.oid bid) then newDoc else d)

/-- `_check_room_availability` as called from `update_booking` with
dynamically-typed arguments drawn from documents: non-datetime interval
values fail like Python does on `astimezone` / `<` (modelled as
`typeError`), and a non-ObjectId `room_id` value matches no room document. -/
def checkRoomAvailabilityB (db : HotelDB) (room_id ci co : BVal)
    (exclude : Option Nat) : Except BookingError Bool :=
  match ci, co with
  | .dt ci2, .dt co2 =>
    match room_id with
    | .oid rid => checkRoomAvailability db rid ci2 co2 exclude
    | _ => .error .roomNotFound
  | _, _ => .error .typeError

/-- `HotelBookingCRUD.update_booking` (lines 192–281).  `bid` is the parsed
`booking_id` (ids are modelled as `Nat`, so `ObjectId.is_valid` holds),
`patch` the `model_dump(by_alias=True, exclude_unset=True)` dictionary,
`now` the value `default_time()` returns during this call.  Returns
`.ok none` when no booking has id `bid` (the Python `return None`).
Note the change detection reads patch keys `room_id`, `check_in_date` and
`check_out_date`, and the recheck branch evaluates
`current_booking_doc["check_in_date"]` (a `KeyError` on documents that
lack the field) before any availability query. -/
def update_booking (db : HotelDB) (bid : Nat) (patch : Doc) (now : Int) :
    Except BookingError (Option (HotelDB × Doc)) :=
  match findBookingDoc db.hotel_bookings bid with
  | none => .ok none
  | some cur =>
    let ud := stripIds patch
    let afterAvail : Except BookingError Unit :=
      if docFieldChanged ud cur "room_id" || docFieldChanged ud cur "check_in_date"
          || docFieldChanged ud cur "check_out_date" then
        match docIndex cur "room_id" with
        | .error e => .error e
        | .ok roomDefault =>
          match docIndex cur "check_in_date" with
          | .error e => .error e
          | .ok ciDefault =>
            match docIndex cur "check_out_date" with
            | .error e => .error e
            | .ok coDefault =>
              match checkRoomAvailabilityB db ((ud.get "room_id").getD roomDefault)
                  ((ud.get "check_in_date").getD ciDefault)
                  ((ud.get "check_out_date").getD coDefault) (some bid) with
              | .error e => .error e
              | .ok available =>
                if !available then .error .bookingConflict else .ok ()
      else .ok ()
    match afterAvail with
    | .error e => .error e
    | .ok _ =>
      let afterUser : Except BookingError Unit :=
        match ud.get "user_id" with
        | some v =>
          match docIndex cur "user_id" with
          | .error e => .error e
          | .ok curU => if v ≠ curU then .error .userIdChange else .ok ()
        | none => .ok ()
      match afterUser with
      | .error e => .error e
      | .ok _ =>
        let ud2 := setField ud "updated_at" (.dt now)
        let newDoc := applySet cur ud2
        if newDoc = cur then .error .notModified
        else
          .ok (some ({db with hotel_bookings := replaceBookingDoc db.hotel_bookings bid newDoc},
                     newDoc))

/-- The outcome of the permission gate of
`routers/boat_bookings.py::update_boat_booking` (lines 99–144), before the
CRUD update runs. -/
inductive GateOutcome where
  | notFoundBooking
  | forbiddenNotOwner
  | forbiddenFields
  | forbiddenStatus
  | proceed
deriving DecidableEq, Repr

/-- HTTP status of each gate rejection (`none` when the request proceeds
to `booking_crud.update_booking`). -/
def GateOutcome.httpStatus : GateOutcome → Option Nat
  | .notFoundBooking => some 404
  | .forbiddenNotOwner => some 403
  | .forbiddenFields => some 403
  | .forbiddenStatus => some 403
  | .proceed => none

/-- The fields a customer may update
(`allowed_fields = {"notes", "status"}` in `update_boat_booking`). -/
def customerAllowedUpdateFields : List String := ["notes", "status"]

/-- The fields of the stored boat booking that `update_boat_booking`
reads: its owner (`user_id`) and current status.  (The booking record
class itself lives in `db/boat_booking_crud.py`; the router reads exactly
these two attributes of it.) -/
structure BoatBookingRec where
  user_id : Nat
  status : BoatBookingStatus
deriving DecidableEq, Repr

/-- The role/ownership/field/transition gate of `update_boat_booking`
(router lines 99–144): 404 when no current booking, 403 for a customer
who is not the owner, 403 when a customer patch carries a key outside
`{notes, status}`, 403 when a customer sets `status` to a value that is
neither the current status nor `cancelled`; otherwise the update
proceeds.  `role` is `current_user_payload["role"]` (compared with
`UserRole.CUSTOMER.value = "customer"`), `caller` the payload's user id,
`update_keys` the keys of `booking.model_dump(exclude_unset=True)` and
`patch_status` the request body's `status` value. -/
def update_boat_booking_gate (role : String) (caller : Nat)
    (current : Option BoatBookingRec) (update_keys : List String)
    (patch_status : BoatBookingStatus) : GateOutcome :=
  match current with
  | none => .notFoundBooking
  | some cur =>
    if role = "customer" && !(cur.user_id = caller) then .forbiddenNotOwner
    else if role = "customer" then
      if !(update_keys.all (customerAllowedUpdateFields.contains ·)) then
        .forbiddenFields
      else if update_keys.contains "status" && !(patch_status = cur.status)
          && !(patch_status.value = "cancelled") then
        .forbiddenStatus
      else .proceed
    else .proceed

/-! ### Concrete fixtures

A single available room (id 1), one registered user (id 7), and bookings
used by the concrete evaluations below.  All ids, timestamps and prices
are arbitrary small values. -/

/-- Room 1, status `available`. -/
def room1 : HotelRoomDoc := { id := 1, room_number := "101", status := .available }

/-- Booking A: room 1, interval `[0, 10)`, status `booked`, owner 7. -/
def bookingA : HotelBooking :=
  { id := 100, customer_name := "Alice", customer_phone := none, room_id := 1,
    check_in := 0, check_out := 10, number_of_guests := 2,
    special_requests := none, total_price := 500, status := .booked,
    created_by := some 7, created_at := 0, updated_at := 0 }

/-- Booking B: room 1, interval `[5, 15)` — overlapping A half-open. -/
def bookingB : HotelBooking :=
  { bookingA with id := 101, customer_name := "Bob", check_in := 5, check_out := 15 }

/-- Booking C: room 1, interval `[20, 30)` — disjoint from A. -/
def bookingC : HotelBooking :=
  { bookingA with id := 102, customer_name := "Carol", check_in := 20, check_out := 30 }

/-- The empty deployment: user 7 registered, room 1, no bookings. -/
def db0 : HotelDB := { users := [7], rooms := [room1], hotel_bookings := [] }

/-- After creating booking A. -/
def db1 : HotelDB := { db0 with hotel_bookings := [hotelBookingDump bookingA] }

/-- After creating bookings A and B. -/
def db2 : HotelDB :=
  { db0 with hotel_bookings := [hotelBookingDump bookingA, hotelBookingDump bookingB] }

/-- Bookings A and C stored (disjoint intervals). -/
def dbAC : HotelDB :=
  { db0 with hotel_bookings := [hotelBookingDump bookingA, hotelBookingDump bookingC] }

/-- Only a cancelled copy of booking A stored. -/
def dbCancelled : HotelDB :=
  { db0 with hotel_bookings := [hotelBookingDump { bookingA with status := .cancelled }] }

/-! ### Helper lemmas about documents, patches and `$set` -/

theorem Doc.get_eq_none {p : Doc} {k : String} (h : ∀ kv ∈ p, kv.1 ≠ k) :
    p.get k = none := by
  induction p with
  | nil => rfl
  | cons kv rest ih =>
    have hk : kv.1 ≠ k := h kv (List.mem_cons_self kv rest)
    obtain ⟨k1, v1⟩ := kv
    simp only [Doc.get]
    rw [if_neg hk]
    exact ih fun kv2 hm => h kv2 (List.mem_cons_of_mem _ hm)

theorem mem_of_mem_stripIds {p : Doc} {kv : String × BVal}
    (h : kv ∈ stripIds p) : kv ∈ p :=
  List.mem_of_mem_filter h

/-- A well-formed patch has no value under a key that is not a model dump
key; in particular none under `check_in_date`, `check_out_date` or
`user_id`. -/
theorem stripIds_get_eq_none {p : Doc} {k : String}
    (hwf : patchWellFormed p) (hk : k ∉ hotelDumpKeys) :
    (stripIds p).get k = none := by
  refine Doc.get_eq_none fun kv hm heq => hk ?_
  exact heq ▸ hwf.1 kv (mem_of_mem_stripIds hm)

theorem docFieldChanged_eq_false {ud cur : Doc} {k : String}
    (h : ud.get k = none) : docFieldChanged ud cur k = false := by
  simp [docFieldChanged, h]

theorem get_setField_self (d : Doc) (k : String) (v : BVal) :
    (setField d k v).get k = some v := by
  induction d with
  | nil => simp [setField, Doc.get]
  | cons kv rest ih =>
    obtain ⟨k1, v1⟩ := kv
    by_cases h : k1 = k
    · simp [setField, h, Doc.get]
    · simp only [setField, if_neg h, Doc.get]
      exact ih

theorem get_setField_ne (d : Doc) {k k2 : String} (v : BVal) (h : k2 ≠ k) :
    (setField d k2 v).get k = d.get k := by
  induction d with
  | nil => simp [setField, Doc.get, h]
  | cons kv rest ih =>
    obtain ⟨k1, v1⟩ := kv
    by_cases h1 : k1 = k2
    · subst h1
      simp [setField, Doc.get, if_neg h]
    · simp only [setField, if_neg h1, Doc.get]
      by_cases h2 : k1 = k
      · rw [if_pos h2, if_pos h2]
      · rw [if_neg h2, if_neg h2]
        exact ih

theorem keys_setField_subset (d : Doc) (k : String) (v : BVal) :
    ∀ k2 ∈ (setField d k v).map Prod.fst, k2 = k ∨ k2 ∈ d.map Prod.fst := by
  induction d with
  | nil =>
    intro k2 hm
    simp only [setField, List.map_cons, List.map_nil, List.mem_singleton] at hm
    exact Or.inl hm
  | cons kv rest ih =>
    obtain ⟨k1, v1⟩ := kv
    intro k2 hm
    by_cases h : k1 = k
    · subst h
      simp [setField] at hm
      simp only [List.map_cons, List.mem_cons]
      rcases hm with h2 | h2
      · exact Or.inl h2
      · obtain ⟨x, hx⟩ := h2
        exact Or.inr (Or.inr (List.mem_map_of_mem Prod.fst hx))
    · simp only [setField, if_neg h, List.map_cons, List.mem_cons] at hm
      simp only [List.map_cons, List.mem_cons]
      rcases hm with h2 | h2
      · exact Or.inr (Or.inl h2)
      · rcases ih k2 h2 with h3 | h3
        · exact Or.inl h3
        · exact Or.inr (Or.inr h3)

theorem keys_setField_nodup {d : Doc} (k : String) (v : BVal)
    (h : (d.map Prod.fst).Nodup) : ((setField d k v).map Prod.fst).Nodup := by
  induction d with
  | nil => simp [setField]
  | cons kv rest ih =>
    obtain ⟨k1, v1⟩ := kv
    simp only [List.map_cons, List.nodup_cons] at h
    by_cases hk : k1 = k
    · subst hk
      simpa [setField, List.nodup_cons] using h
    · simp only [setField, if_neg hk, List.map_cons, List.nodup_cons]
      refine ⟨fun hm => ?_, ih h.2⟩
      rcases keys_setField_subset rest k v k1 hm with h2 | h2
      · exact hk h2
      · exact h.1 h2

theorem mem_setField_self (d : Doc) (k : String) (v : BVal) :
    (k, v) ∈ setField d k v := by
  induction d with
  | nil => simp [setField]
  | cons kv rest ih =>
    obtain ⟨k1, v1⟩ := kv
    by_cases h : k1 = k
    · simp [setField, h]
    · simp only [setField, if_neg h, List.mem_cons]
      exact Or.inr ih

theorem get_applySet_not_mem (d : Doc) {updates : Doc} {k : String}
    (h : k ∉ updates.map Prod.fst) : (applySet d updates).get k = d.get k := by
  induction updates generalizing d with
  | nil => rfl
  | cons kv rest ih =>
    obtain ⟨k1, v1⟩ := kv
    simp only [List.map_cons, List.mem_cons, not_or] at h
    simp only [applySet]
    rw [ih (setField d k1 v1) h.2, get_setField_ne d v1 (fun he => h.1 he.symm)]

theorem get_applySet_mem (d : Doc) {updates : Doc} {k : String} {v : BVal}
    (hnd : (updates.map Prod.fst).Nodup) (hmem : (k, v) ∈ updates) :
    (applySet d updates).get k = some v := by
  induction updates generalizing d with
  | nil => cases hmem
  | cons kv rest ih =>
    obtain ⟨k1, v1⟩ := kv
    simp only [List.map_cons, List.nodup_cons] at hnd
    simp only [applySet]
    rcases List.mem_cons.mp hmem with h1 | h1
    · cases h1
      rw [get_applySet_not_mem _ hnd.1, get_setField_self]
    · exact ih (setField d k1 v1) hnd.2 h1

/-- `db/models.py::HotelBooking.check_out_after_check_in`: the Pydantic
field validator for `check_out`.  `info_check_in` is
`info.data["check_in"]` when `check_in` is present in `info.data` (it is
whenever the model as a whole validates, since `check_in` is a required
field declared before `check_out`). -/
def check_out_after_check_in (info_check_in : Option Int) (v : Int) :
    Except String Int :=
  match info_check_in with
  | some ci => if v ≤ ci then .error "Check-out date must be after check-in date" else .ok v
  | none => .ok v

/-- `db/models.py::BoatBooking.end_time_after_start_time`: the Pydantic
field validator for `end_time`. -/
def end_time_after_start_time (info_start_time : Option Int) (v : Int) :
    Except String Int :=
  match info_start_time with
  | some st => if v ≤ st then .error "End time must be after start time" else .ok v
  | none => .ok v

/-! ### Further concrete fixtures for the settled claims -/

/-- Patch moving a booking to the interval `[5, 15)` — the dump keys are
`check_in` / `check_out` (a model dump can produce no other key for the
interval fields). -/
def patchMoveC : Doc := [("check_in", .dt 5), ("check_out", .dt 15)]

/-- The stored document after applying `patchMoveC` (plus the refreshed
`updated_at`) to booking C. -/
def movedCDoc : Doc :=
  applySet (hotelBookingDump bookingC) (setField (stripIds patchMoveC) "updated_at" (.dt 50))

/-- Patch writing a different owner reference. -/
def patchOwner : Doc := [("created_by", .oid 9)]

/-- The stored document after applying `patchOwner` to booking A. -/
def ownerChangedDoc : Doc :=
  applySet (hotelBookingDump bookingA) (setField (stripIds patchOwner) "updated_at" (.dt 50))

/-- Patch that re-sends a field with its stored value (no actual change). -/
def patchNoop : Doc := [("customer_name", .str "Alice")]

/-- The stored document after applying `patchNoop` to booking A at time 50:
only `updated_at` differs from the stored document. -/
def noopDoc : Doc :=
  applySet (hotelBookingDump bookingA) (setField (stripIds patchNoop) "updated_at" (.dt 50))

/-- Deployment with no registered users. -/
def dbNoUsers : HotelDB := { db0 with users := [] }

/-- A booking whose interval is empty (`check_out ≤ check_in`); the
Pydantic validator would reject it, but the CRUD layer can be called with
it directly. -/
def badIntervalBooking : HotelBooking := { bookingA with check_in := 5, check_out := 3 }

/-! ### Claim theorems -/

/-- C1 — the claim fails on the code (code bug).  The claim: creating a
second booking whose active-status interval overlaps an existing active
booking on the same room fails with BookingConflict (409) and nothing is
persisted.  In the code, the overlap query filters on the fields
`check_in_date` / `check_out_date`, which stored booking documents do not
carry (they store `check_in` / `check_out`), so the query matches no
stored booking: booking B (`[5, 15)`, `booked`) is created successfully
over booking A (`[0, 10)`, `booked`) on the same room, and both persist
with active statuses. -/
theorem c1_overlapping_active_bookings_both_persist :
    create_booking db0 bookingA = .ok (db1, hotelBookingDump bookingA)
    ∧ create_booking db1 bookingB = .ok (db2, hotelBookingDump bookingB)
    ∧ bookingB.room_id = bookingA.room_id
    ∧ bookingA.check_in < bookingB.check_out
    ∧ bookingB.check_in < bookingA.check_out
    ∧ bookingA.status.value ∈ activeBookingStatuses
    ∧ bookingB.status.value ∈ activeBookingStatuses
    ∧ db2.hotel_bookings.length = 2 := by decide

/-- C2 — the claim fails on the code (code bug).  The claim: an update
changing the interval (or room) re-runs the availability check excluding
the booking itself, and an overlapping new slot fails with
BookingConflict.  In the code, the change detection reads the patch keys
`check_in_date` / `check_out_date`, which a model dump never produces
(its keys are `check_in` / `check_out`), so moving booking C (`[20, 30)`)
onto `[5, 15)` — overlapping the active booking A (`[0, 10)`) — skips the
re-check and succeeds; and a patch that does change `room_id` crashes
with a `KeyError` when the recheck branch evaluates
`current_booking_doc["check_in_date"]`. -/
theorem c2_interval_update_bypasses_recheck :
    update_booking dbAC 102 patchMoveC 50 =
      .ok (some ({ dbAC with
        hotel_bookings := replaceBookingDoc dbAC.hotel_bookings 102 movedCDoc },
        movedCDoc))
    ∧ movedCDoc.get "check_in" = some (.dt 5)
    ∧ movedCDoc.get "check_out" = some (.dt 15)
    ∧ movedCDoc.get "status" = some (.str "booked")
    ∧ (hotelBookingDump bookingA).get "status" = some (.str "booked")
    ∧ bookingA.check_in < 15 ∧ (5 : Int) < bookingA.check_out
    ∧ update_booking dbAC 102 [("room_id", .oid 2)] 50 = .error .keyError := by decide

/-- C3 — the claim fails on the code (code bug).  The claim: the overlap
test is half-open — a candidate `[start, end)` overlaps an existing
booking iff `existing.start < end ∧ existing.end > start` — and an
adjacent request (start = existing end) is created successfully.  The
query's shape is indeed the half-open comparison, but it compares the
fields `check_in_date` / `check_out_date`, which stored bookings lack
(they store the interval under `check_in` / `check_out`), so a stored
booking satisfying the half-open overlap formula is still reported as not
overlapping: the room is reported available for `[5, 15)` over stored
booking A = `[0, 10)`.  (The adjacent case `[10, 20)` does succeed.) -/
theorem c3_half_open_test_never_matches_stored_bookings :
    (bookingA.check_in < 15 ∧ bookingA.check_out > 5)
    ∧ overlapQueryMatch 1 5 15 none (hotelBookingDump bookingA) = false
    ∧ checkRoomAvailability db1 1 5 15 none = .ok true
    ∧ checkRoomAvailability db1 1 10 20 none = .ok true
    ∧ (hotelBookingDump bookingA).get "check_in" = some (.dt bookingA.check_in)
    ∧ (hotelBookingDump bookingA).get "check_in_date" = none := by decide

/-- C6 — the claim fails on the code (code bug).  The claim: an update
changing the booking's owner identity fails with InvalidUpdate (400), so
the owner reference never changes.  In the code, the guard checks the key
`user_id`, which no hotel patch contains (the model's owner field dumps
as `created_by`), so an update rewriting `created_by` from user 7 to
user 9 succeeds and persists the new owner. -/
theorem c6_owner_change_persists :
    update_booking db1 100 patchOwner 50 =
      .ok (some ({ db1 with
        hotel_bookings := replaceBookingDoc db1.hotel_bookings 100 ownerChangedDoc },
        ownerChangedDoc))
    ∧ (hotelBookingDump bookingA).get "created_by" = some (.oid 7)
    ∧ ownerChangedDoc.get "created_by" = some (.oid 9)
    ∧ ("user_id" ∈ hotelDumpKeys → False) := by decide

/-- C4 counterexample: a booking creation with an empty interval whose
creator is not a registered user fails with UserNotFound (404), not with
InvalidInterval (400), because `create_booking` validates the user before
calling `_check_room_availability`. -/
theorem c4_counterexample_user_check_precedes_interval_check :
    badIntervalBooking.check_out ≤ badIntervalBooking.check_in
    ∧ create_booking dbNoUsers badIntervalBooking = .error .userNotFound
    ∧ BookingError.userNotFound ≠ BookingError.invalidInterval
    ∧ BookingError.userNotFound.httpStatus = some 404
    ∧ BookingError.invalidInterval.httpStatus = some 400 := by decide

/-- C9 counterexample: an update of an existing booking whose patch
changes no actual stored field (it re-sends `customer_name` with its
stored value) succeeds — `update_booking` always adds
`updated_at := now` to the `$set`, so at `now = 50 ≠ 0` (the stored
`updated_at`) the document is modified and no NotModified is signalled;
only at the coincidence `now = 0` does the 304 path fire. -/
theorem c9_counterexample_noop_update_succeeds :
    ((stripIds patchNoop).all fun kv => (hotelBookingDump bookingA).get kv.1 = some kv.2)
    ∧ update_booking db1 100 patchNoop 50 =
        .ok (some ({ db1 with
          hotel_bookings := replaceBookingDoc db1.hotel_bookings 100 noopDoc },
          noopDoc))
    ∧ noopDoc.get "updated_at" = some (.dt 50)
    ∧ update_booking db1 100 patchNoop 0 = .error .notModified := by decide

/-- C4 (amended): every availability check with `start ≥ end` fails with
InvalidInterval (HTTP 400) before reading any collection, a booking
creation *by an existing user* with `start ≥ end` fails with
InvalidInterval and persists nothing (a creation by a non-existent user
fails with UserNotFound first), and every availability check that
returns a verdict had `start < end`. -/
theorem c4_invalid_interval_rejected (db : HotelDB) (b : HotelBooking) (uid : Nat)
    (h1 : b.created_by = some uid) (h2 : db.users.contains uid = true)
    (h3 : b.check_out ≤ b.check_in) :
    create_booking db b = .error .invalidInterval
    ∧ BookingError.invalidInterval.httpStatus = some 400
    ∧ (∀ rid ci co ex, co ≤ ci →
        checkRoomAvailability db rid ci co ex = .error .invalidInterval)
    ∧ (∀ rid ci co ex avail,
        checkRoomAvailability db rid ci co ex = .ok avail → ci < co) := by
  have hav : ∀ rid ci co ex, co ≤ ci →
      checkRoomAvailability db rid ci co ex = .error .invalidInterval := by
    intro rid ci co ex h
    unfold checkRoomAvailability
    rw [if_pos h]
  refine ⟨?_, rfl, hav, ?_⟩
  · unfold create_booking
    rw [h1]
    simp only [hav b.room_id b.check_in b.check_out none h3]
    have h2m : uid ∈ db.users := by simpa using h2
    simp [h2m]
  · intro rid ci co ex avail h
    by_cases hc : co ≤ ci
    · rw [hav rid ci co ex hc] at h
      cases h
    · exact not_le.mp hc

/-- Witness for C4: the amended statement at a concrete input — user 7
exists in `db0` and `badIntervalBooking` has an empty interval, so its
creation fails with InvalidInterval. -/
theorem c4_invalid_interval_witness :
    create_booking db0 badIntervalBooking = .error .invalidInterval :=
  (c4_invalid_interval_rejected db0 badIntervalBooking 7 (by decide) (by decide)
    (by decide)).1

/-- The `status` field of a stored hotel-booking dump is the status
enum's string value. -/
theorem hotelBookingDump_get_status (b : HotelBooking) :
    (hotelBookingDump b).get "status" = some (.str b.status.value) := rfl

/-- A document whose `status` field is a string outside the active set
never matches the overlap query (the `$in` condition fails). -/
theorem overlapQueryMatch_eq_false_of_status {d : Doc} {s : String}
    (hs : d.get "status" = some (.str s)) (hns : s ∉ activeBookingStatuses)
    (rid : Nat) (ci co : Int) (ex : Option Nat) :
    overlapQueryMatch rid ci co ex d = false := by
  have hc : activeBookingStatuses.contains s = false := by simpa using hns
  simp only [overlapQueryMatch, hs]
  rw [hc]
  simp

/-- Any document the overlap query matches carries a `status` string in
the active set. -/
theorem overlapQueryMatch_active_of_true {d : Doc} {rid : Nat} {ci co : Int}
    {ex : Option Nat} (h : overlapQueryMatch rid ci co ex d = true) :
    ∃ s, d.get "status" = some (.str s) ∧ s ∈ activeBookingStatuses := by
  unfold overlapQueryMatch at h
  simp only [Bool.and_eq_true] at h
  have hfac := h.1.1.1.2
  rcases hd : d.get "status" with _ | v
  · rw [hd] at hfac
    cases hfac
  · rw [hd] at hfac
    cases v with
    | str s => exact ⟨s, rfl, by simpa using hfac⟩
    | oid n => cases hfac
    | dt t => cases hfac
    | int n => cases hfac
    | null => cases hfac

/-- C5: a booking creation whose room's stored bookings all hold
non-active statuses (cancelled or checked-out) succeeds — non-active
statuses never block availability, a matching (blocking) document always
carries an active-set status (`pending`, `booked`, `checked-in`,
`checked-out-unpaid`), and a cancelled booking's stored document never
matches the overlap query. -/
theorem c5_inactive_statuses_never_block (db : HotelDB) (b : HotelBooking)
    (uid : Nat) (room : HotelRoomDoc)
    (h1 : b.created_by = some uid) (h2 : db.users.contains uid = true)
    (h3 : b.check_in < b.check_out)
    (h4 : db.rooms.find? (fun r => r.id = b.room_id) = some room)
    (h5 : room.status ≠ .maintenance)
    (h6 : ∀ d ∈ db.hotel_bookings,
        d.get "status" = some (.str "cancelled") ∨
        d.get "status" = some (.str "checked-out")) :
    (∃ db2 doc, create_booking db b = .ok (db2, doc))
    ∧ (∀ d (rid : Nat) (ci co : Int) (ex : Option Nat) s,
        d.get "status" = some (.str s) → s ∉ activeBookingStatuses →
        overlapQueryMatch rid ci co ex d = false)
    ∧ (∀ d (rid : Nat) (ci co : Int) (ex : Option Nat),
        overlapQueryMatch rid ci co ex d = true →
        ∃ s, d.get "status" = some (.str s) ∧ s ∈ activeBookingStatuses)
    ∧ (∀ b2 : HotelBooking, b2.status = .cancelled → ∀ (rid : Nat) (ci co : Int)
        (ex : Option Nat),
        overlapQueryMatch rid ci co ex (hotelBookingDump b2) = false) := by
  refine ⟨?_, fun d rid ci co ex s hs hns =>
      overlapQueryMatch_eq_false_of_status hs hns rid ci co ex,
    fun d rid ci co ex h => overlapQueryMatch_active_of_true h,
    fun b2 hb2 rid ci co ex => ?_⟩
  · have hfil : db.hotel_bookings.filter
        (overlapQueryMatch b.room_id b.check_in b.check_out none) = [] := by
      refine List.filter_eq_nil_iff.mpr fun d hd => ?_
      rcases h6 d hd with hs | hs
      · rw [overlapQueryMatch_eq_false_of_status hs (by decide) _ _ _ _]
        simp
      · rw [overlapQueryMatch_eq_false_of_status hs (by decide) _ _ _ _]
        simp
    have hav : checkRoomAvailability db b.room_id b.check_in b.check_out none
        = .ok true := by
      unfold checkRoomAvailability
      rw [if_neg (not_le.mpr h3), h4]
      dsimp only
      rw [if_neg h5, hfil]
      simp
    unfold create_booking
    rw [h1]
    have h2m : uid ∈ db.users := by simpa using h2
    simp [h2m, hav]
  · have hs : (hotelBookingDump b2).get "status" = some (.str "cancelled") := by
      rw [hotelBookingDump_get_status, hb2]
      rfl
    exact overlapQueryMatch_eq_false_of_status hs (by decide) rid ci co ex

/-- Witness for C5: over a database whose only stored booking is a
cancelled copy of booking A on the same room and the same dates, creating
booking B (overlapping interval `[5, 15)`) succeeds. -/
theorem c5_inactive_statuses_witness :
    ∃ db2 doc, create_booking dbCancelled bookingB = .ok (db2, doc) :=
  (c5_inactive_statuses_never_block dbCancelled bookingB 7 room1 (by decide)
    (by decide) (by decide) (by decide) (by decide) (by decide)).1

/-- C7: for a non-empty interval, an availability check against a
non-existent room fails with RoomNotFound (HTTP 404), one against a room
under maintenance fails with RoomOutOfService, and any successful booking
creation implies its room exists and is not under maintenance. -/
theorem c7_resource_existence_and_maintenance (db : HotelDB) (rid : Nat)
    (ci co : Int) (ex : Option Nat) (hiv : ci < co) :
    (db.rooms.find? (fun r => r.id = rid) = none →
        checkRoomAvailability db rid ci co ex = .error .roomNotFound)
    ∧ (∀ room, db.rooms.find? (fun r => r.id = rid) = some room →
        room.status = .maintenance →
        checkRoomAvailability db rid ci co ex = .error .roomOutOfService)
    ∧ BookingError.roomNotFound.httpStatus = some 404
    ∧ (∀ (b : HotelBooking) db2 doc, create_booking db b = .ok (db2, doc) →
        ∃ room, db.rooms.find? (fun r => r.id = b.room_id) = some room ∧
          room.status ≠ .maintenance) := by
  refine ⟨?_, ?_, rfl, ?_⟩
  · intro hnone
    unfold checkRoomAvailability
    rw [if_neg (not_le.mpr hiv), hnone]
  · intro room hsome hm
    unfold checkRoomAvailability
    rw [if_neg (not_le.mpr hiv), hsome]
    dsimp only
    rw [if_pos hm]
  · intro b db2 doc h
    unfold create_booking at h
    split at h
    · cases h
    · split at h
      · cases h
      · split at h
        · cases h
        · rename_i avail heq
          by_cases hc : b.check_out ≤ b.check_in
          · unfold checkRoomAvailability at heq
            rw [if_pos hc] at heq
            cases heq
          · unfold checkRoomAvailability at heq
            rw [if_neg hc] at heq
            rcases hfr : db.rooms.find? (fun r => r.id = b.room_id) with _ | room
            · rw [hfr] at heq
              cases heq
            · rw [hfr] at heq
              dsimp only at heq
              by_cases hm : room.status = .maintenance
              · rw [if_pos hm] at heq
                cases heq
              · exact ⟨room, hfr, hm⟩

/-- Witness for C7: in the concrete deployment `db0` (which has no room
with id 2), the availability check for room 2 over `[0, 10)` fails with
RoomNotFound. -/
theorem c7_resource_checks_witness :
    checkRoomAvailability db0 2 0 10 none = .error .roomNotFound :=
  (c7_resource_existence_and_maintenance db0 2 0 10 none (by decide)).1 (by decide)

/-- C8: a customer-issued boat-booking update that sets `status` to a
value different from the current status and different from `cancelled`
is rejected with HTTP 403, whatever the ownership or field situation; a
customer patch carrying a key outside `{notes, status}` is rejected with
HTTP 403; and whenever a customer update proceeds past the gate, every
patched key is allowed and any patched status is either unchanged or
`cancelled`. -/
theorem c8_customer_status_transition_gate (caller : Nat) (cur : BoatBookingRec)
    (keys : List String) (st : BoatBookingStatus)
    (hkey : keys.contains "status" = true)
    (hne : st ≠ cur.status) (hnc : st.value ≠ "cancelled") :
    (update_boat_booking_gate "customer" caller (some cur) keys st).httpStatus
      = some 403
    ∧ (∀ (keys2 : List String) (st2 : BoatBookingStatus),
        ¬ (∀ k ∈ keys2, k ∈ customerAllowedUpdateFields) →
        (update_boat_booking_gate "customer" caller (some cur) keys2 st2).httpStatus
          = some 403)
    ∧ (∀ (keys3 : List String) (st3 : BoatBookingStatus),
        update_boat_booking_gate "customer" caller (some cur) keys3 st3 = .proceed →
        (∀ k ∈ keys3, k ∈ customerAllowedUpdateFields)
        ∧ (keys3.contains "status" = true →
            st3 = cur.status ∨ st3.value = "cancelled")) := by
  have hmem : "status" ∈ keys := by simpa using hkey
  refine ⟨?_, ?_, ?_⟩
  · unfold update_boat_booking_gate
    by_cases hown : cur.user_id = caller
    · by_cases hsub : ∀ k ∈ keys, k ∈ customerAllowedUpdateFields
      · have hnex : ¬∃ x ∈ keys, x ∉ customerAllowedUpdateFields := by
          push_neg
          exact hsub
        simp [hown, hnex, hmem, hne, hnc, GateOutcome.httpStatus]
      · have hex : ∃ x ∈ keys, x ∉ customerAllowedUpdateFields := by
          push_neg at hsub
          exact hsub
        simp [hown, hex, GateOutcome.httpStatus]
    · simp [hown, GateOutcome.httpStatus]
  · intro keys2 st2 hsub
    have hex : ∃ x ∈ keys2, x ∉ customerAllowedUpdateFields := by
      push_neg at hsub
      exact hsub
    unfold update_boat_booking_gate
    by_cases hown : cur.user_id = caller
    · simp [hown, hex, GateOutcome.httpStatus]
    · simp [hown, GateOutcome.httpStatus]
  · intro keys3 st3 hproc
    unfold update_boat_booking_gate at hproc
    by_cases hown : cur.user_id = caller
    · by_cases hsub : ∀ k ∈ keys3, k ∈ customerAllowedUpdateFields
      · refine ⟨hsub, ?_⟩
        intro hk3
        have hm3 : "status" ∈ keys3 := by simpa using hk3
        by_contra hboth
        push_neg at hboth
        have hnex : ¬∃ x ∈ keys3, x ∉ customerAllowedUpdateFields := by
          push_neg
          exact hsub
        simp [hown, hnex, hm3, hboth.1, hboth.2] at hproc
      · have hex : ∃ x ∈ keys3, x ∉ customerAllowedUpdateFields := by
          push_neg at hsub
          exact hsub
        simp [hown, hex] at hproc
    · simp [hown] at hproc

/-- Witness for C8: a customer who owns booking (owner 5, status
`booked`) and patches only `status := completed` is rejected with 403. -/
theorem c8_customer_status_gate_witness :
    (update_boat_booking_gate "customer" 5
      (some { user_id := 5, status := .booked }) ["status"] .completed).httpStatus
      = some 403 :=
  (c8_customer_status_transition_gate 5 { user_id := 5, status := .booked }
    ["status"] .completed (by decide) (by decide) (by decide)).1

/-- The state and document a successful `update_booking` produces: the
stored document with the (id-stripped) patch and the refreshed
`updated_at` applied, replacing the old document in the collection. -/
def updatedState (db : HotelDB) (bid : Nat) (patch : Doc) (now : Int)
    (cur : Doc) : HotelDB × Doc :=
  let newDoc := applySet cur (setField (stripIds patch) "updated_at" (.dt now))
  ({db with hotel_bookings := replaceBookingDoc db.hotel_bookings bid newDoc}, newDoc)

/-- Dropping the id keys preserves key uniqueness. -/
theorem stripIds_keys_nodup {p : Doc} (h : (p.map Prod.fst).Nodup) :
    ((stripIds p).map Prod.fst).Nodup := by
  refine List.Nodup.sublist ?_ h
  exact List.Sublist.map Prod.fst (List.filter_sublist p)

/-- C9 (amended): an update with an unknown booking id returns the
NotFound signal (`None`), distinct from NotModified.  For an existing
booking and a well-formed patch that does not change the room reference,
NotModified (HTTP 304) is signalled exactly when the applied `$set` —
which always includes `updated_at := now` — leaves the stored document
unchanged, and otherwise the update succeeds, persists, and returns the
updated record whose `updated_at` equals `now`; in particular an update
changing no caller-supplied field still succeeds whenever `now` differs
from the stored `updated_at`.  A well-formed patch that does change the
room reference instead fails with a `KeyError` before any write, because
the recheck branch reads the stored field `check_in_date`, which stored
booking documents lack. -/
theorem c9_update_outcome_characterisation (db : HotelDB) (bid : Nat)
    (patch : Doc) (now : Int) (cur : Doc)
    (hfind : findBookingDoc db.hotel_bookings bid = some cur)
    (hwf : patchWellFormed patch) :
    (∀ bid2, findBookingDoc db.hotel_bookings bid2 = none →
        update_booking db bid2 patch now = .ok none)
    ∧ (docFieldChanged (stripIds patch) cur "room_id" = false →
        (applySet cur (setField (stripIds patch) "updated_at" (.dt now)) = cur →
          update_booking db bid patch now = .error .notModified)
        ∧ (applySet cur (setField (stripIds patch) "updated_at" (.dt now)) ≠ cur →
          update_booking db bid patch now =
            .ok (some (updatedState db bid patch now cur))))
    ∧ (docFieldChanged (stripIds patch) cur "room_id" = true →
        cur.get "check_in_date" = none →
        update_booking db bid patch now = .error .keyError)
    ∧ (applySet cur (setField (stripIds patch) "updated_at" (.dt now))).get
        "updated_at" = some (.dt now)
    ∧ BookingError.notModified.httpStatus = some 304 := by
  have hci : (stripIds patch).get "check_in_date" = none :=
    stripIds_get_eq_none hwf (by decide)
  have hco : (stripIds patch).get "check_out_date" = none :=
    stripIds_get_eq_none hwf (by decide)
  have huid : (stripIds patch).get "user_id" = none :=
    stripIds_get_eq_none hwf (by decide)
  have hup : (applySet cur (setField (stripIds patch) "updated_at" (.dt now))).get
      "updated_at" = some (.dt now) := by
    have hnd : ((stripIds patch).map Prod.fst).Nodup := stripIds_keys_nodup hwf.2
    exact get_applySet_mem cur (keys_setField_nodup "updated_at" (.dt now) hnd)
      (mem_setField_self (stripIds patch) "updated_at" (.dt now))
  refine ⟨?_, ?_, ?_, hup, rfl⟩
  · intro bid2 h2
    unfold update_booking
    rw [h2]
  · intro hroom
    have hred : update_booking db bid patch now =
        (if applySet cur (setField (stripIds patch) "updated_at" (.dt now)) = cur
         then .error .notModified
         else .ok (some (updatedState db bid patch now cur))) := by
      unfold update_booking updatedState
      rw [hfind]
      dsimp only
      rw [hroom, docFieldChanged_eq_false hci, docFieldChanged_eq_false hco, huid]
      simp only [Bool.or_self, Bool.or_false, Bool.false_or, Bool.false_eq_true,
        if_false]
    exact ⟨fun h => by rw [hred, if_pos h], fun h => by rw [hred, if_neg h]⟩
  · intro hroom hcid
    unfold update_booking
    rw [hfind]
    dsimp only
    rw [hroom]
    rcases hrid : cur.get "room_id" with _ | v
    · simp [docIndex, hrid, hcid]
    · simp [docIndex, hrid, hcid]

/-- Witness for C9: in `db1`, updating the unknown id 999 returns the
NotFound signal, and updating booking 100 at time 50 with the no-change
patch succeeds with `updated_at = 50`. -/
theorem c9_update_outcomes_witness :
    update_booking db1 999 patchNoop 50 = .ok none
    ∧ update_booking db1 100 patchNoop 50 =
        .ok (some (updatedState db1 100 patchNoop 50 (hotelBookingDump bookingA))) :=
  ⟨(c9_update_outcome_characterisation db1 100 patchNoop 50
      (hotelBookingDump bookingA) (by decide) (by decide)).1 999 (by decide),
   ((c9_update_outcome_characterisation db1 100 patchNoop 50
      (hotelBookingDump bookingA) (by decide) (by decide)).2.1 (by decide)).2
      (by decide)⟩

/-- C10: the Pydantic interval validators accept exactly the non-empty
half-open intervals — `HotelBooking.check_out_after_check_in` accepts
`check_out` iff `check_in < check_out` and errors iff
`check_out ≤ check_in`, and `BoatBooking.end_time_after_start_time`
accepts `end_time` iff `start_time < end_time` and errors iff
`end_time ≤ start_time`; so every model value accepted at the public
interface has `end > start`. -/
theorem c10_model_validators_enforce_nonempty_interval :
    ∀ ci v : Int,
      (check_out_after_check_in (some ci) v = .ok v ↔ ci < v)
      ∧ ((∃ e, check_out_after_check_in (some ci) v = .error e) ↔ v ≤ ci)
      ∧ (end_time_after_start_time (some ci) v = .ok v ↔ ci < v)
      ∧ ((∃ e, end_time_after_start_time (some ci) v = .error e) ↔ v ≤ ci) := by
  intro ci v
  unfold check_out_after_check_in end_time_after_start_time
  dsimp only
  by_cases h : v ≤ ci
  · rw [if_pos h, if_pos h]
    simp [h, not_lt.mpr h]
  · rw [if_neg h, if_neg h]
    simp [h, not_le.mp h]

end DockDineStay
